import Mathlib

/-!
Verification development for the `med_segmentation` repository.

Part 1 embeds `src/convert_mat_to_nifti.py`: the per-subject pipeline that
combines four named segmentation mask arrays into one composite label volume
and writes it as a NIfTI file.  Arrays are modelled as a shape (three
dimensions) together with a total data function on indices; numpy's in-place
broadcasting `+=` is modelled by `iadd?`, which fails (returns `none`, as
numpy raises) when the addend's shape cannot broadcast against the
accumulator's, and otherwise stretches size-1 dimensions.  Mask element
values are modelled as rationals (the accumulator in the script is a float64
array); `np.ushort` conversion is modelled as truncation toward zero followed
by wrap-around modulo 2^16, which is what the float64 -> uint16 C cast does
for the values reachable here.

Part 2 embeds the argument handling of `block` and the assertion of
`block_FCN` from `src/models/basic_block.py`.
-/

/-- A 3-D numeric array: three dimensions and a total data function.
Mask arrays read from the mat container, and the float accumulator `img`,
are both values of this type. -/
@[ext]
structure Arr3 where
  d0 : ℕ
  d1 : ℕ
  d2 : ℕ
  data : ℕ → ℕ → ℕ → ℚ

/-- A 3-D array of unsigned integers: the element type after `np.ushort`. -/
@[ext]
structure Arr3N where
  d0 : ℕ
  d1 : ℕ
  d2 : ℕ
  data : ℕ → ℕ → ℕ → ℕ

/-- `np.swapaxes(a, 0, 1)` : axes 0 and 1 are exchanged. -/
def swapaxes01 (a : Arr3) : Arr3 :=
  ⟨a.d1, a.d0, a.d2, fun i j k => a.data j i k⟩

/-- `seg_map * c` : elementwise multiplication of an array by a scalar. -/
def scale (c : ℚ) (a : Arr3) : Arr3 :=
  ⟨a.d0, a.d1, a.d2, fun i j k => a.data i j k * c⟩

/-- Index adjustment for numpy broadcasting: a dimension of size 1 is
stretched, i.e. always read at index 0. -/
def bidx (d i : ℕ) : ℕ :=
  if d = 1 then 0 else i

/-- Whether `x` broadcasts against the shape of the accumulator `img` in an
in-place `img += x` (both arrays have rank 3 here): each dimension of `x`
equals the corresponding dimension of `img` or is 1. -/
def bcastOk (img x : Arr3) : Prop :=
  (x.d0 = img.d0 ∨ x.d0 = 1) ∧ (x.d1 = img.d1 ∨ x.d1 = 1) ∧ (x.d2 = img.d2 ∨ x.d2 = 1)

instance (img x : Arr3) : Decidable (bcastOk img x) := by
  unfold bcastOk; infer_instance

/-- The value computed by `img += x` under broadcasting: the shape is the
accumulator's, size-1 dimensions of `x` are stretched. -/
def iadd (img x : Arr3) : Arr3 :=
  ⟨img.d0, img.d1, img.d2,
    fun i j k => img.data i j k + x.data (bidx x.d0 i) (bidx x.d1 j) (bidx x.d2 k)⟩

/-- `img += x` as numpy executes it: succeeds with `iadd img x` when the
shapes broadcast, and raises (here: `none`) otherwise. -/
def iadd? (img x : Arr3) : Option Arr3 :=
  if bcastOk img x then some (iadd img x) else none

/-- `image_size = [320, 260, 316]` from the script. -/
def image_size : List ℕ := [320, 260, 316]

/-- The `labels` dict of the script, in insertion order:
`{'P_BG': 0, 'P_AT': 1, 'P_LT': 2, 'P_VAT': 3}`. -/
def labels : List (String × ℕ) :=
  [("P_BG", 0), ("P_AT", 1), ("P_LT", 2), ("P_VAT", 3)]

/-- The four named 3-D arrays extracted from one subject's mat container. -/
structure MatContent where
  P_BG : Arr3
  P_AT : Arr3
  P_LT : Arr3
  P_VAT : Arr3

/-- `mat_content[seg_class]` for the four class keys of `labels`. -/
def matLookup (m : MatContent) (key : String) : Arr3 :=
  if key = "P_BG" then m.P_BG
  else if key = "P_AT" then m.P_AT
  else if key = "P_LT" then m.P_LT
  else m.P_VAT

/-- `np.zeros(image_size)` : the all-zero accumulator of shape
(320, 260, 316). -/
def zerosImg : Arr3 :=
  ⟨320, 260, 316, fun _ _ _ => 0⟩

/-- The accumulation loop of the script:
`for seg_class in labels: img += np.swapaxes(mat_content[seg_class],0,1) * labels[seg_class]`,
starting from the all-zero accumulator; `none` when one of the in-place adds
fails to broadcast. -/
def compositeImg? (m : MatContent) : Option Arr3 :=
  labels.foldl
    (fun acc p => acc.bind fun img => iadd? img (scale (p.2 : ℚ) (swapaxes01 (matLookup m p.1))))
    (some zerosImg)

/-- Truncation toward zero of a rational, as the float -> integer C cast
truncates. -/
def ratTrunc (q : ℚ) : ℤ :=
  q.num.tdiv (q.den : ℤ)

/-- The `np.ushort` (uint16) conversion applied to one element: truncation
toward zero, then reduction modulo 2^16 (the wrap-around the cast performs
on this platform for the representable range). -/
def ushortCast (q : ℚ) : ℕ :=
  ((ratTrunc q).emod 65536).toNat

/-- `np.ushort(img)` : elementwise uint16 conversion of the accumulator. -/
def npUshort (a : Arr3) : Arr3N :=
  ⟨a.d0, a.d1, a.d2, fun i j k => ushortCast (a.data i j k)⟩

/-- The data array wrapped by `nib.Nifti1Image(np.ushort(img), affine=None)`
for one subject; `none` when the accumulation raised. -/
def niftiImage? (m : MatContent) : Option Arr3N :=
  (compositeImg? m).map npUshort

/-- `path_save_labels` from the script. -/
def path_save_labels : String := "/mnt/share/rahauei1/AT_Thomas/labels"

/-- `os.path.join(path_save_labels, f'AT_{subject}.nii.gz')` : the output
path written for one subject. -/
def outputPath (subject : String) : String :=
  path_save_labels ++ "/" ++ ("AT_" ++ subject ++ ".nii.gz")

/-- A Python value that may be compared against `None` with `is`: either the
`None` singleton or a list object. -/
inductive PyVal where
  | pyNone : PyVal
  | pyList : List String → PyVal

/-- `x is None` for such a value: true exactly for the `None` singleton; a
list object, empty or not, is never identical to `None`. -/
def pyIsNone : PyVal → Bool
  | PyVal.pyNone => true
  | PyVal.pyList _ => false

/-- The expression `[subject for i in labels_already_processed if subject == i]`
of the script: a list comprehension, hence always a list object. -/
def processedComprehension (subject : String) (processed : List String) : PyVal :=
  PyVal.pyList ((processed.filter fun i => subject = i).map fun _ => subject)

/-- The decision the loop body takes for one subject. -/
inductive SubjectAction where
  | skipBad : SubjectAction
  | skipProcessed : SubjectAction
  | process : SubjectAction
deriving DecidableEq

/-- The `if subject == '103828_30': continue / elif [...] is None: continue /
else: ...` decision of the script's loop body. -/
def subjectAction (subject : String) (processed : List String) : SubjectAction :=
  if subject = "103828_30" then SubjectAction.skipBad
  else if pyIsNone (processedComprehension subject processed) then SubjectAction.skipProcessed
  else SubjectAction.process

/-- The expected shape of a raw class mask array: (260, 320, 316), i.e. the
shape that becomes `image_size = (320, 260, 316)` once axes 0 and 1 are
swapped. -/
def goodShape (a : Arr3) : Prop :=
  a.d0 = 260 ∧ a.d1 = 320 ∧ a.d2 = 316

instance (a : Arr3) : Decidable (goodShape a) := by
  unfold goodShape; infer_instance

/-- The weighted sum accumulated at output position (i, j, k): each class's
mask value at the axis-swapped source position (j, i, k), weighted by the
class's label code. -/
def weightedSum (m : MatContent) (i j k : ℕ) : ℚ :=
  m.P_BG.data j i k * 0 + m.P_AT.data j i k * 1 + m.P_LT.data j i k * 2
    + m.P_VAT.data j i k * 3

/-- The composite volume as the spec words it: "produced by summing each
class mask weighted by its label code, after swapping the first two spatial
axes of each class mask", the accumulator then "cast to an unsigned integer
type".  Stated directly from the spec as the refinement target for the
embedded pipeline. -/
def specCompositeVolume (m : MatContent) : Arr3N :=
  ⟨320, 260, 316, fun i j k =>
    ushortCast (0 * m.P_BG.data j i k + 1 * m.P_AT.data j i k
      + 2 * m.P_LT.data j i k + 3 * m.P_VAT.data j i k)⟩

/-- The four class arrays of a subject, indexed in label order. -/
def classArrs (m : MatContent) : Fin 4 → Arr3
  | 0 => m.P_BG
  | 1 => m.P_AT
  | 2 => m.P_LT
  | 3 => m.P_VAT

/-- The label code of each class, in the same order. -/
def classCode : Fin 4 → ℕ
  | 0 => 0
  | 1 => 1
  | 2 => 2
  | 3 => 3

/-- A 3-D array of the given shape whose elements are all `v`. -/
def constArr (a b c : ℕ) (v : ℚ) : Arr3 :=
  ⟨a, b, c, fun _ _ _ => v⟩

/-- Concrete subject content used in witnesses: all masks of the expected
shape, with constant values 1, 0, 1, 0. -/
def mGood : MatContent :=
  ⟨constArr 260 320 316 1, constArr 260 320 316 0,
    constArr 260 320 316 1, constArr 260 320 316 0⟩

/-- Concrete subject content whose four class arrays all have the same shape
S = (1, 1, 1). -/
def mTiny : MatContent :=
  ⟨constArr 1 1 1 0, constArr 1 1 1 0, constArr 1 1 1 0, constArr 1 1 1 0⟩

/-- Concrete subject content with overlapping masks: the three tissue masks
are all 1 everywhere, so every voxel accumulates 1 + 2 + 3 = 6. -/
def mOverlap : MatContent :=
  ⟨constArr 260 320 316 0, constArr 260 320 316 1,
    constArr 260 320 316 1, constArr 260 320 316 1⟩

/-- Concrete subject content where exactly the `P_AT` mask is 1. -/
def mSingle : MatContent :=
  ⟨constArr 260 320 316 0, constArr 260 320 316 1,
    constArr 260 320 316 0, constArr 260 320 316 0⟩

/-- Concrete subject contents differing only in the background mask's data. -/
def mBgA : MatContent :=
  ⟨constArr 260 320 316 5, constArr 260 320 316 1,
    constArr 260 320 316 0, constArr 260 320 316 0⟩

/-- Same as `mBgA` except for the background mask values. -/
def mBgB : MatContent :=
  ⟨constArr 260 320 316 7, constArr 260 320 316 1,
    constArr 260 320 316 0, constArr 260 320 316 0⟩

/-- The default `order` of `block`: `['c', 'r', 'b']`.  Entries are
`Option String` because the padding loop appends Python `None` entries. -/
def default_order : List (Option String) := [some "c", some "r", some "b"]

/-- The effective `order` after the `if order is None` default. -/
def effOrder (order : Option (List (Option String))) : List (Option String) :=
  order.getD default_order

/-- The effective `order_param` after the `if order_param is None` default
(`[None] * 3`); `α` is the type of one (opaque) layer-parameter dict. -/
def effParam (α : Type) (order_param : Option (List (Option α))) : List (Option α) :=
  order_param.getD (List.replicate 3 Option.none)

/-- The effective `order` after the padding loop
`while len(order) < len(order_param): order.append(None)`. -/
def paddedOrder (α : Type) (order : Option (List (Option String)))
    (order_param : Option (List (Option α))) : List (Option String) :=
  effOrder order
    ++ List.replicate ((effParam α order_param).length - (effOrder order).length) Option.none

/-- The argument handling of `block`: apply the two defaults, pad `order`
with `None` entries while it is shorter than `order_param`, then
`assert len(order) == len(order_param)` (error when it fails), and finally
append `'d'` to `order` when a `dropout` keyword argument was passed.
Returns the `(order, order_param)` pair the returned `func` closes over. -/
def blockSetup (α : Type) (order : Option (List (Option String)))
    (order_param : Option (List (Option α))) (hasDropout : Bool) :
    Except String (List (Option String) × List (Option α)) :=
  if (paddedOrder α order order_param).length = (effParam α order_param).length then
    Except.ok
      ((if hasDropout then paddedOrder α order order_param ++ [some "d"]
        else paddedOrder α order order_param),
        effParam α order_param)
  else
    Except.error "assert failed: len(order) == len(order_param)"

/-- The `(item, item_param)` pairs that `func`'s
`for item, item_param in zip(order, order_param)` loop actually iterates
over (`zip` truncates to the shorter list). -/
def blockPairs (α : Type) (order : Option (List (Option String)))
    (order_param : Option (List (Option α))) (hasDropout : Bool) :
    Except String (List (Option String × Option α)) :=
  match blockSetup α order order_param hasDropout with
  | Except.ok p => Except.ok (p.1.zip p.2)
  | Except.error e => Except.error e

/-- The assertion at the top of `block_FCN`:
`assert hidden_layers != len(neurons_layer), "..."` (the two adjacent string
literals of the message concatenate without a space). -/
def block_FCN_check (hidden_layers : ℕ) (neurons_layer : List ℕ) : Except String Unit :=
  if hidden_layers ≠ neurons_layer.length then Except.ok ()
  else Except.error
    "Number of hidden neurons per layer should be equal to numberof hidden layers"

/-- Claim C2: for every subject key and every list of already-processed keys,
the "already processed" exclusion branch never triggers: the `is None` test
on a list-comprehension result is never true, so this exclusion skips no
subject. -/
theorem claim_C2 (subject : String) (processed : List String) :
    subjectAction subject processed ≠ SubjectAction.skipProcessed := by
  unfold subjectAction
  split
  · simp
  · simp [pyIsNone, processedComprehension]

/-- Witness for C2 at a concrete subject that does appear in the processed
list: the branch is still not taken. -/
theorem claim_C2_witness :
    subjectAction "100012_30" ["100012_30"] ≠ SubjectAction.skipProcessed :=
  claim_C2 "100012_30" ["100012_30"]

/-- Claim C6: the output filename is a pure function of the subject key,
`AT_<subject_key>.nii.gz` under the output directory, and it is injective:
distinct subject keys produce distinct paths. -/
theorem claim_C6 (s t : String) (h : outputPath s = outputPath t) : s = t := by
  unfold outputPath path_save_labels at h
  have hd := congrArg String.data h
  simp only [String.data_append] at hd
  have hd' := List.append_cancel_left hd
  have hd'' := List.append_cancel_right hd'
  have hd''' := List.append_cancel_left hd''
  exact String.ext hd'''

/-- Witness for C6: applying the injectivity theorem at two concrete equal
paths. -/
theorem claim_C6_witness : ("103828_30" : String) = "103828_30" :=
  claim_C6 "103828_30" "103828_30" rfl

lemma matLookup_BG (m : MatContent) : matLookup m "P_BG" = m.P_BG := rfl

lemma matLookup_AT (m : MatContent) : matLookup m "P_AT" = m.P_AT := rfl

lemma matLookup_LT (m : MatContent) : matLookup m "P_LT" = m.P_LT := rfl

lemma matLookup_VAT (m : MatContent) : matLookup m "P_VAT" = m.P_VAT := rfl

lemma iadd?_eq_some (img x : Arr3) (h : bcastOk img x) :
    iadd? img x = some (iadd img x) :=
  if_pos h

/-- Evaluation of the accumulation loop when all four masks have the
expected raw shape (260, 320, 316): every in-place add broadcasts exactly,
and the result is the axis-swapped weighted sum over the fixed accumulator
shape. -/
lemma compositeImg?_eval (m : MatContent) (hB : goodShape m.P_BG)
    (hA : goodShape m.P_AT) (hL : goodShape m.P_LT) (hV : goodShape m.P_VAT) :
    compositeImg? m = some ⟨320, 260, 316, fun i j k => weightedSum m i j k⟩ := by
  obtain ⟨b0, b1, b2⟩ := hB
  obtain ⟨a0, a1, a2⟩ := hA
  obtain ⟨l0, l1, l2⟩ := hL
  obtain ⟨v0, v1, v2⟩ := hV
  simp only [compositeImg?, labels, List.foldl_cons, List.foldl_nil, Option.some_bind,
    matLookup_BG, matLookup_AT, matLookup_LT, matLookup_VAT]
  rw [iadd?_eq_some, Option.some_bind, iadd?_eq_some, Option.some_bind,
    iadd?_eq_some, Option.some_bind, iadd?_eq_some]
  · refine congrArg some (Arr3.ext rfl rfl rfl ?_)
    funext i j k
    simp only [iadd, scale, swapaxes01, zerosImg, bidx, weightedSum, b0, b1, b2, a0, a1, a2,
      l0, l1, l2, v0, v1, v2]
    norm_num
  all_goals
    exact ⟨Or.inl (by assumption), Or.inl (by assumption), Or.inl (by assumption)⟩

lemma iadd?_dims (img x y : Arr3) (h : iadd? img x = some y) :
    y.d0 = img.d0 ∧ y.d1 = img.d1 ∧ y.d2 = img.d2 := by
  unfold iadd? at h
  split at h
  · cases h; exact ⟨rfl, rfl, rfl⟩
  · cases h

lemma ushortCast_lt (q : ℚ) : ushortCast q < 65536 := by
  unfold ushortCast
  have h1 : 0 ≤ (ratTrunc q).emod 65536 := Int.emod_nonneg _ (by norm_num)
  have h2 : (ratTrunc q).emod 65536 < 65536 := Int.emod_lt_of_pos _ (by norm_num)
  omega

lemma scale_zero_eval (x : Arr3) :
    scale ((0 : ℕ) : ℚ) (swapaxes01 x) = ⟨x.d1, x.d0, x.d2, fun _ _ _ => 0⟩ := by
  refine Arr3.ext rfl rfl rfl ?_
  funext i j k
  simp [scale, swapaxes01]

/-- Claim C1: for every subject whose four class masks have the expected raw
shape, the composite label volume produced by the pipeline — an all-zero
real-valued accumulator, then for each of the four class arrays (P_BG, P_AT,
P_LT, P_VAT) a swap of axes 0 and 1, an elementwise multiplication by that
class's integer label code (0, 1, 2, 3), an addition into the accumulator,
and finally a cast of the accumulator to an unsigned integer type — equals
the spec's direct weighted-sum description `specCompositeVolume`. -/
theorem claim_C1 (m : MatContent) (hB : goodShape m.P_BG) (hA : goodShape m.P_AT)
    (hL : goodShape m.P_LT) (hV : goodShape m.P_VAT) :
    niftiImage? m = some (specCompositeVolume m) := by
  unfold niftiImage?
  rw [compositeImg?_eval m hB hA hL hV]
  simp only [Option.map_some']
  refine congrArg some (Arr3N.ext rfl rfl rfl ?_)
  funext i j k
  show ushortCast (weightedSum m i j k) = _
  unfold weightedSum specCompositeVolume
  congr 1
  ring

theorem claim_C1_witness : niftiImage? mGood = some (specCompositeVolume mGood) :=
  claim_C1 mGood ⟨rfl, rfl, rfl⟩ ⟨rfl, rfl, rfl⟩ ⟨rfl, rfl, rfl⟩ ⟨rfl, rfl, rfl⟩

/-- Counterexample to claim C3 as stated: for the subject `mTiny`, all four
class arrays have the same shape S = (1, 1, 1), and S with axes 0 and 1
swapped is again (1, 1, 1); yet the pipeline succeeds (the size-1 dimensions
broadcast against the fixed accumulator) and the composite volume has the
accumulator's shape (320, 260, 316), not S with axes swapped. -/
theorem claim_C3_counterexample :
    ∃ a, compositeImg? mTiny = some a ∧ ¬(a.d0 = 1 ∧ a.d1 = 1 ∧ a.d2 = 1) :=
  ⟨_, rfl, by decide⟩

/-- Claim C3, amended: whenever the label compositor produces a composite
volume at all, that volume has the fixed shape `image_size` =
(320, 260, 316) — the accumulator's shape — regardless of the class arrays'
common shape S; it therefore equals S with axes 0 and 1 swapped exactly in
the expected case S = (260, 320, 316). -/
theorem claim_C3 (m : MatContent) (a : Arr3) (h : compositeImg? m = some a) :
    a.d0 = 320 ∧ a.d1 = 260 ∧ a.d2 = 316 := by
  simp only [compositeImg?, labels, List.foldl_cons, List.foldl_nil, Option.some_bind] at h
  rcases Option.bind_eq_some.mp h with ⟨c3, hc3, h4⟩
  rcases Option.bind_eq_some.mp hc3 with ⟨c2, hc2, h3⟩
  rcases Option.bind_eq_some.mp hc2 with ⟨c1, hc1, h2⟩
  obtain ⟨e10, e11, e12⟩ := iadd?_dims _ _ _ hc1
  obtain ⟨e20, e21, e22⟩ := iadd?_dims _ _ _ h2
  obtain ⟨e30, e31, e32⟩ := iadd?_dims _ _ _ h3
  obtain ⟨e40, e41, e42⟩ := iadd?_dims _ _ _ h4
  refine ⟨?_, ?_, ?_⟩
  · rw [e40, e30, e20, e10]; rfl
  · rw [e41, e31, e21, e11]; rfl
  · rw [e42, e32, e22, e12]; rfl

/-- Witness for C3: the amended theorem applied to the concrete subject
`mTiny`. -/
theorem claim_C3_witness :
    ∃ a, compositeImg? mTiny = some a ∧ a.d0 = 320 ∧ a.d1 = 260 ∧ a.d2 = 316 :=
  ⟨_, rfl, claim_C3 mTiny _ rfl⟩

/-- Claim C4: at every voxel position at which exactly one class array has
value 1 and the other three have value 0, the composite volume's value at
the corresponding axis-swapped position equals that class's label code. -/
theorem claim_C4 (m : MatContent) (sel : Fin 4) (i j k : ℕ)
    (hB : goodShape m.P_BG) (hA : goodShape m.P_AT) (hL : goodShape m.P_LT)
    (hV : goodShape m.P_VAT) (hi : i < 260) (hj : j < 320) (hk : k < 316)
    (hval : ∀ c : Fin 4, (classArrs m c).data i j k = if c = sel then 1 else 0) :
    ∃ out, niftiImage? m = some out ∧ out.data j i k = classCode sel := by
  have he : niftiImage? m
      = some (npUshort ⟨320, 260, 316, fun a b c => weightedSum m a b c⟩) := by
    unfold niftiImage?
    rw [compositeImg?_eval m hB hA hL hV]
    rfl
  refine ⟨_, he, ?_⟩
  have h0 := hval 0
  have h1 := hval 1
  have h2 := hval 2
  have h3 := hval 3
  rw [show classArrs m 0 = m.P_BG from rfl] at h0
  rw [show classArrs m 1 = m.P_AT from rfl] at h1
  rw [show classArrs m 2 = m.P_LT from rfl] at h2
  rw [show classArrs m 3 = m.P_VAT from rfl] at h3
  show ushortCast (weightedSum m j i k) = classCode sel
  unfold weightedSum
  fin_cases sel
  · rw [if_pos (by decide)] at h0
    rw [if_neg (by decide)] at h1
    rw [if_neg (by decide)] at h2
    rw [if_neg (by decide)] at h3
    rw [h0, h1, h2, h3]
    norm_num [ushortCast, ratTrunc]
    decide
  · rw [if_neg (by decide)] at h0
    rw [if_pos (by decide)] at h1
    rw [if_neg (by decide)] at h2
    rw [if_neg (by decide)] at h3
    rw [h0, h1, h2, h3]
    norm_num [ushortCast, ratTrunc]
    decide
  · rw [if_neg (by decide)] at h0
    rw [if_neg (by decide)] at h1
    rw [if_pos (by decide)] at h2
    rw [if_neg (by decide)] at h3
    rw [h0, h1, h2, h3]
    norm_num [ushortCast, ratTrunc]
    decide
  · rw [if_neg (by decide)] at h0
    rw [if_neg (by decide)] at h1
    rw [if_neg (by decide)] at h2
    rw [if_pos (by decide)] at h3
    rw [h0, h1, h2, h3]
    norm_num [ushortCast, ratTrunc]
    decide

/-- Witness for C4: the subject `mSingle` (only `P_AT` is 1) at voxel
(0, 0, 0) yields composite value `classCode 1` = 1. -/
theorem claim_C4_witness :
    ∃ out, niftiImage? mSingle = some out ∧ out.data 0 0 0 = classCode 1 :=
  claim_C4 mSingle 1 0 0 0 ⟨rfl, rfl, rfl⟩ ⟨rfl, rfl, rfl⟩ ⟨rfl, rfl, rfl⟩ ⟨rfl, rfl, rfl⟩
    (by norm_num) (by norm_num) (by norm_num) (by decide)

/-- Claim C5: the composite volume is invariant to the content of the
background mask: two inputs that differ only in the `P_BG` array (same
shapes) produce identical outputs, because the background label code is 0. -/
theorem claim_C5 (m m' : MatContent) (hAT : m.P_AT = m'.P_AT) (hLT : m.P_LT = m'.P_LT)
    (hVAT : m.P_VAT = m'.P_VAT) (h0 : m.P_BG.d0 = m'.P_BG.d0) (h1 : m.P_BG.d1 = m'.P_BG.d1)
    (h2 : m.P_BG.d2 = m'.P_BG.d2) :
    niftiImage? m = niftiImage? m' := by
  unfold niftiImage?
  suffices h : compositeImg? m = compositeImg? m' by rw [h]
  simp only [compositeImg?, labels, List.foldl_cons, List.foldl_nil, Option.some_bind,
    matLookup_BG, matLookup_AT, matLookup_LT, matLookup_VAT]
  rw [hAT, hLT, hVAT, scale_zero_eval m.P_BG, scale_zero_eval m'.P_BG, h0, h1, h2]

/-- Witness for C5: two concrete subjects whose background masks hold 5 and
7 everywhere produce the same output. -/
theorem claim_C5_witness : niftiImage? mBgA = niftiImage? mBgB :=
  claim_C5 mBgA mBgB rfl rfl rfl rfl rfl rfl

/-- Claim C10: the written composite volume's element type is unsigned
16-bit: every written element is below 2^16; the real-valued accumulator is
converted elementwise with `np.ushort` before wrapping in the NIfTI image;
the conversion truncates fractional parts and reduces modulo 2^16
(5/2 maps to 2, and 65538.5 maps to 2); and values outside the label code
set — here 6, from three overlapping masks — are written silently rather
than rejected. -/
theorem claim_C10 :
    (∀ (m : MatContent) (out : Arr3N), niftiImage? m = some out →
        ∀ i j k : ℕ, out.data i j k < 65536)
    ∧ (∀ (m : MatContent) (a : Arr3), compositeImg? m = some a →
        niftiImage? m = some (npUshort a))
    ∧ ushortCast ((5 : ℚ) / 2) = 2
    ∧ ushortCast ((65538 : ℚ) + 1 / 2) = 2
    ∧ (∃ out, niftiImage? mOverlap = some out ∧ out.data 0 0 0 = 6
        ∧ (6 : ℕ) ∉ labels.map Prod.snd) := by
  refine ⟨?_, ?_, ?_, ?_, ?_⟩
  · intro m out h i j k
    unfold niftiImage? at h
    rcases Option.map_eq_some'.mp h with ⟨a, _, rfl⟩
    exact ushortCast_lt _
  · intro m a h
    unfold niftiImage?
    rw [h]
    rfl
  · norm_num [ushortCast, ratTrunc]
    decide
  · norm_num [ushortCast, ratTrunc]
    decide
  · refine ⟨npUshort ⟨320, 260, 316, fun a b c => weightedSum mOverlap a b c⟩, ?_, ?_,
      by decide⟩
    · unfold niftiImage?
      rw [compositeImg?_eval mOverlap ⟨rfl, rfl, rfl⟩ ⟨rfl, rfl, rfl⟩ ⟨rfl, rfl, rfl⟩
        ⟨rfl, rfl, rfl⟩]
      rfl
    · show ushortCast (weightedSum mOverlap 0 0 0) = 6
      norm_num [weightedSum, mOverlap, constArr, ushortCast, ratTrunc]
      decide

/-- Witness for C10: the bound below 2^16, applied to the concrete
overlapping-mask subject. -/
theorem claim_C10_witness :
    ∃ out, niftiImage? mOverlap = some out ∧ out.data 2 3 4 < 65536 := by
  obtain ⟨out, hout, _, _⟩ := claim_C10.2.2.2.2
  exact ⟨out, hout, claim_C10.1 mOverlap out hout 2 3 4⟩

lemma zip_append_single {γ δ : Type} (l1 : List γ) (l2 : List δ) (x : γ)
    (h : l1.length = l2.length) : (l1 ++ [x]).zip l2 = l1.zip l2 := by
  induction l1 generalizing l2 with
  | nil => cases l2 with
    | nil => rfl
    | cons b bs => simp at h
  | cons a as ih => cases l2 with
    | nil => simp at h
    | cons b bs =>
      simp only [List.cons_append, List.zip_cons_cons]
      rw [ih bs (by simpa using h)]

lemma blockSetup_ok_true (α : Type) (order : Option (List (Option String)))
    (order_param : Option (List (Option α)))
    (h : (paddedOrder α order order_param).length = (effParam α order_param).length) :
    blockSetup α order order_param true
      = Except.ok (paddedOrder α order order_param ++ [some "d"], effParam α order_param) := by
  unfold blockSetup
  rw [if_pos h]
  rfl

lemma blockSetup_ok_false (α : Type) (order : Option (List (Option String)))
    (order_param : Option (List (Option α)))
    (h : (paddedOrder α order order_param).length = (effParam α order_param).length) :
    blockSetup α order order_param false
      = Except.ok (paddedOrder α order order_param, effParam α order_param) := by
  unfold blockSetup
  rw [if_pos h]
  rfl

lemma blockSetup_err (α : Type) (order : Option (List (Option String)))
    (order_param : Option (List (Option α))) (hasDropout : Bool)
    (h : ¬(paddedOrder α order order_param).length = (effParam α order_param).length) :
    blockSetup α order order_param hasDropout
      = Except.error "assert failed: len(order) == len(order_param)" := by
  unfold blockSetup
  rw [if_neg h]

/-- Claim C8: passing a `dropout` keyword argument to `block` never causes
the returned `func` to apply a Dropout layer: the `'d'` item is appended to
`order` only after `order` has been padded to the length of `order_param`,
so the `zip` inside `func` truncates it away — the executed
`(item, item_param)` pairs are the same with and without the `dropout`
argument, and when the setup succeeds the pairs cover exactly `order`
without its final appended `'d'`. -/
theorem claim_C8 (α : Type) (order : Option (List (Option String)))
    (order_param : Option (List (Option α))) :
    blockPairs α order order_param true = blockPairs α order order_param false
    ∧ ∀ o p, blockSetup α order order_param true = Except.ok (o, p) →
        (o.zip p).map Prod.fst = o.dropLast := by
  by_cases h : (paddedOrder α order order_param).length = (effParam α order_param).length
  · constructor
    · unfold blockPairs
      rw [blockSetup_ok_true α order order_param h, blockSetup_ok_false α order order_param h]
      exact congrArg Except.ok (zip_append_single _ _ _ h)
    · intro o p hok
      rw [blockSetup_ok_true α order order_param h] at hok
      simp only [Except.ok.injEq, Prod.mk.injEq] at hok
      obtain ⟨ho, hp⟩ := hok
      subst ho hp
      rw [zip_append_single _ _ _ h, List.dropLast_concat,
        List.map_fst_zip _ _ (le_of_eq h)]
  · constructor
    · unfold blockPairs
      rw [blockSetup_err α order order_param true h, blockSetup_err α order order_param false h]
    · intro o p hok
      rw [blockSetup_err α order order_param true h] at hok
      cases hok

/-- Witness for C8 at the default arguments (`order` and `order_param` both
absent): the appended `'d'` is dropped from the executed pairs. -/
theorem claim_C8_witness :
    blockPairs ℕ none none true = blockPairs ℕ none none false
    ∧ (([some "c", some "r", some "b", some "d"].zip
          (List.replicate 3 (Option.none : Option ℕ))).map Prod.fst
        = [some "c", some "r", some "b", some "d"].dropLast) :=
  ⟨(claim_C8 ℕ none none).1,
    (claim_C8 ℕ none none).2 [some "c", some "r", some "b", some "d"]
      (List.replicate 3 Option.none) rfl⟩

/-- Claim C9: `block` raises an AssertionError exactly when the effective
`order` list is strictly longer than the effective `order_param` list: the
padding loop only extends `order` up to `len(order_param)`, never extends
`order_param`, so the length-equality assertion fails in that direction
(and only in that direction). -/
theorem claim_C9 (α : Type) (order : Option (List (Option String)))
    (order_param : Option (List (Option α))) (hasDropout : Bool) :
    (∃ msg, blockSetup α order order_param hasDropout = Except.error msg)
    ↔ (effParam α order_param).length < (effOrder order).length := by
  have hlen : (paddedOrder α order order_param).length
      = (effOrder order).length
        + ((effParam α order_param).length - (effOrder order).length) := by
    simp [paddedOrder]
  by_cases h : (paddedOrder α order order_param).length = (effParam α order_param).length
  · constructor
    · rintro ⟨msg, hmsg⟩
      cases hasDropout with
      | true => rw [blockSetup_ok_true α order order_param h] at hmsg; cases hmsg
      | false => rw [blockSetup_ok_false α order order_param h] at hmsg; cases hmsg
    · intro hlt
      omega
  · constructor
    · intro _
      omega
    · intro _
      exact ⟨_, blockSetup_err α order order_param hasDropout h⟩

/-- Witness for C9: an explicit `order` of four items with the default
`order_param` of length three makes the assertion fail. -/
theorem claim_C9_witness :
    ∃ msg, blockSetup ℕ (some [some "c", some "r", some "b", some "r"]) none false
      = Except.error msg :=
  (claim_C9 ℕ (some [some "c", some "r", some "b", some "r"]) none false).mpr (by decide)

/-- Claim C7: the assertion of `block_FCN` is inverted: it passes exactly
when `hidden_layers` differs from `len(neurons_layer)`, and raises an
assertion failure (with the message that describes equality as the valid
case) exactly when they are equal. -/
theorem claim_C7 (hl : ℕ) (nl : List ℕ) :
    (block_FCN_check hl nl = Except.ok () ↔ hl ≠ nl.length)
    ∧ (block_FCN_check hl nl
        = Except.error
          "Number of hidden neurons per layer should be equal to numberof hidden layers"
      ↔ hl = nl.length) := by
  by_cases h : hl = nl.length
  · simp [block_FCN_check, h]
  · simp [block_FCN_check, h]

/-- Witness for C7: the default call (`hidden_layers = 2`,
`neurons_layer = [50, 100]`) hits the inverted assertion and raises. -/
theorem claim_C7_witness :
    block_FCN_check 2 [50, 100]
      = Except.error
        "Number of hidden neurons per layer should be equal to numberof hidden layers" :=
  (claim_C7 2 [50, 100]).2.mpr rfl
